import Mathlib

/-!
# Session-based authentication: verification of `session_auth.rs`

A shallow embedding of `src/session/session_auth.rs` (crate Authfix).
The session store adapter (actix-session) is the external collaborator of
spec sections 2 and 6: a per-client key/value bag whose typed read of one
key returns `Result<Option<T>, Error>`.  We embed a session record by the
outcome each of the three reserved keys (`user`, `needs_mfa`,
`login_valid_until`) produces at the single type the source reads it at,
together with the session identity and the purged flag the adapter keeps.
-/

/-- Outcome of the adapter's typed read of one session key,
`Session::get::<T>(key) -> Result<Option<T>, SessionGetError>`:
`absent` is `Ok(None)` (key not in the record); `value a` is `Ok(Some a)`
(present and deserialized as `T`); `unreadable` is `Err(_)` (the key is
present but its stored value fails to deserialize as `T`, or the store
read itself errors). -/
inductive EntryRead (α : Type) where
  | absent : EntryRead α
  | value (a : α) : EntryRead α
  | unreadable : EntryRead α
deriving DecidableEq, Repr

/-- Modelled from the spec: the Session Store Adapter of section 6 is an
external collaborator (actix-session), supplied, not built.  A session
record is one client's key/value bag restricted to the three reserved keys
the core reads, each embedded as the outcome of its one typed read
(`user` at `U`, `needs_mfa` at `String`, `login_valid_until` at
`SystemTime`, timestamps embedded as `Nat`), plus the session identity
(a `Nat` standing for the opaque session id) and the purged flag. -/
structure Session (U : Type) where
  identity : Nat
  user : EntryRead U
  needs_mfa : EntryRead String
  login_valid_until : EntryRead Nat
  purged : Bool
deriving DecidableEq, Repr

/-- Modelled from the spec: `UnauthorizedError` is an opaque failure
marker with no payload (spec section 6), built by `UnauthorizedError::default()`. -/
structure UnauthorizedError where
deriving DecidableEq, Repr

instance : Inhabited UnauthorizedError := ⟨⟨⟩⟩

namespace UnauthorizedError

/-- `UnauthorizedError::default()`. -/
def default : UnauthorizedError := ⟨⟩

end UnauthorizedError

/-- Modelled from the spec: `AuthState` is the closed enumeration
`Unauthenticated` / `NeedsMfa` / `Authenticated` of spec section 3; its
definition lives in the crate root, outside the provided source file. -/
inductive AuthState where
  | Unauthenticated : AuthState
  | NeedsMfa : AuthState
  | Authenticated : AuthState
deriving DecidableEq, Repr

/-- Modelled from the spec: `AuthToken<U> { user: U, state: AuthState }`
(spec sections 3 and 6); its definition lives in the crate root, outside
the provided source file. -/
structure AuthToken (U : Type) where
  user : U
  state : AuthState
deriving DecidableEq, Repr

namespace AuthToken

/-- `AuthToken::new(user, state)`. -/
def new {U : Type} (user : U) (state : AuthState) : AuthToken U :=
  ⟨user, state⟩

end AuthToken

/-- `SessionAuthProvider::get_auth_token` (session_auth.rs lines 42-64):
read `user` as `U` — only `Ok(Some(user))` proceeds, every other outcome
returns `Err(UnauthorizedError::default())`; then read `needs_mfa` as
`String` — `Ok(Some(_))` gives state `NeedsMfa`, `Ok(None)` gives
`Authenticated`, `Err(_)` logs and returns `Err(UnauthorizedError::default())`;
finally return `Ok(AuthToken::new(user, state))`. -/
def get_auth_token {U : Type} (s : Session U) :
    Except UnauthorizedError (AuthToken U) :=
  match s.user with
  | EntryRead.value user =>
    match s.needs_mfa with
    | EntryRead.value _mfa_id => Except.ok (AuthToken.new user AuthState.NeedsMfa)
    | EntryRead.absent => Except.ok (AuthToken.new user AuthState.Authenticated)
    | EntryRead.unreadable => Except.error UnauthorizedError.default
  | _ => Except.error UnauthorizedError.default

namespace LoginSession

/-- Modelled from the spec: the adapter operation `renew_identity()`
(spec section 6; `Session::renew`) issues a new session identity distinct
from the old one and keeps the record's content. -/
def renew {U : Type} (s : Session U) : Session U :=
  { s with identity := s.identity + 1 }

/-- Modelled from the spec: the adapter operation `clear()` (spec
section 6; `Session::clear`) removes every key of the record, leaving the
identity as it is. -/
def clear {U : Type} (s : Session U) : Session U :=
  { s with user := EntryRead.absent,
           needs_mfa := EntryRead.absent,
           login_valid_until := EntryRead.absent }

/-- Modelled from the spec: the adapter operation `purge()` (spec
section 6; `Session::purge`) irrevocably discards the session record and
its identity: the record is emptied and marked purged. -/
def purge {U : Type} (s : Session U) : Session U :=
  { s with user := EntryRead.absent,
           needs_mfa := EntryRead.absent,
           login_valid_until := EntryRead.absent,
           purged := true }

/-- `LoginSession::mfa_challenge_done` (session_auth.rs lines 109-111):
`self.session.remove(SESSION_KEY_NEED_MFA)` — the `needs_mfa` key is
removed; `remove` on an absent key is a no-op returning `None`. -/
def mfa_challenge_done {U : Type} (s : Session U) : Session U :=
  { s with needs_mfa := EntryRead.absent }

/-- `LoginSession::needs_mfa` (session_auth.rs lines 113-115):
`self.session.insert(SESSION_KEY_NEED_MFA, mfa_id)` — serializing a
`&str` never fails, and the stored JSON string deserializes back to the
same `String`, so the `needs_mfa` entry becomes `value mfa_id`. -/
def needs_mfa {U : Type} (s : Session U) (mfa_id : String) : Session U :=
  { s with needs_mfa := EntryRead.value mfa_id }

/-- `LoginSession::valid_until` (session_auth.rs lines 121-124):
`self.session.insert(SESSION_KEY_LOGIN_VALID_UNTIL, valid_until)`. -/
def valid_until {U : Type} (s : Session U) (t : Nat) : Session U :=
  { s with login_valid_until := EntryRead.value t }

/-- `LoginSession::no_longer_valid` (session_auth.rs lines 126-134):
read `login_valid_until` as a timestamp; on `Ok(Some(valid_until))` the
result is `SystemTime::now() > valid_until`; every other outcome
(absent key, unreadable value, store error) gives `true`.  The current
time is passed explicitly as `now`. -/
def no_longer_valid {U : Type} (now : Nat) (s : Session U) : Bool :=
  match s.login_valid_until with
  | EntryRead.value vu => decide (now > vu)
  | _ => true

/-- `LoginSession::reset` (session_auth.rs lines 136-139):
`self.session.renew(); self.session.clear()` — renew the identity, then
clear all keys, in that order. -/
def reset {U : Type} (s : Session U) : Session U :=
  clear (renew s)

/-- `LoginSession::destroy` (session_auth.rs lines 141-143):
`self.session.purge()`. -/
def destroy {U : Type} (s : Session U) : Session U :=
  purge s

end LoginSession

/-- C1: for every session record with no `user` entry — the key absent, the
stored value failing to deserialize as `U`, or the store read erroring (the
latter two both surface as the read erroring, `EntryRead.unreadable`) —
`get_auth_token` returns `UnauthorizedError` and never a token. -/
theorem get_auth_token_no_user_unauthorized {U : Type} (s : Session U)
    (h : s.user = EntryRead.absent ∨ s.user = EntryRead.unreadable) :
    get_auth_token s = Except.error UnauthorizedError.default := by
  rcases h with h | h <;> simp [get_auth_token, h]

/-- Witness for C1 at a concrete session whose `user` key is absent. -/
theorem get_auth_token_no_user_unauthorized_witness :
    (⟨0, EntryRead.absent, EntryRead.absent, EntryRead.absent, false⟩ :
        Session String).user = EntryRead.absent
    ∧ get_auth_token
        (⟨0, EntryRead.absent, EntryRead.absent, EntryRead.absent, false⟩ :
          Session String)
      = Except.error UnauthorizedError.default :=
  ⟨rfl, get_auth_token_no_user_unauthorized _ (Or.inl rfl)⟩

/-- Counterexample to C2: a session whose `user` deserializes but whose
`needs_mfa` key is present with a value that does not read back as a
`String` (the `Err(_)` arm of `s.get::<String>`, session_auth.rs lines
57-60) is NOT mapped to `NeedsMfa`: `get_auth_token` fails with
`UnauthorizedError`, so a present-but-unparseable value is not
"read as present". -/
theorem get_auth_token_unreadable_mfa_cex :
    (⟨0, EntryRead.value "u1", EntryRead.unreadable, EntryRead.absent, false⟩ :
        Session String).user = EntryRead.value "u1"
    ∧ (⟨0, EntryRead.value "u1", EntryRead.unreadable, EntryRead.absent, false⟩ :
        Session String).needs_mfa = EntryRead.unreadable
    ∧ get_auth_token
        (⟨0, EntryRead.value "u1", EntryRead.unreadable, EntryRead.absent, false⟩ :
          Session String)
      = Except.error UnauthorizedError.default :=
  ⟨rfl, rfl, rfl⟩

/-- C2 (amended): with a deserializable `user`, a `needs_mfa` entry that
reads as a present string value — any value, including the empty string —
yields state `NeedsMfa`; a `needs_mfa` entry whose read errors (value
present but unparseable as a string, or a store fault) instead makes
`get_auth_token` fail with `UnauthorizedError`. -/
theorem get_auth_token_needs_mfa_amended {U : Type} (s : Session U) (u : U)
    (hu : s.user = EntryRead.value u) :
    (∀ v : String, s.needs_mfa = EntryRead.value v →
      get_auth_token s = Except.ok (AuthToken.new u AuthState.NeedsMfa))
    ∧ (s.needs_mfa = EntryRead.unreadable →
      get_auth_token s = Except.error UnauthorizedError.default) :=
  ⟨fun v hv => by simp [get_auth_token, hu, hv],
   fun hv => by simp [get_auth_token, hu, hv]⟩

/-- Witness for C2 (amended) at a concrete session whose `needs_mfa` entry
holds the empty string. -/
theorem get_auth_token_needs_mfa_amended_witness :
    get_auth_token
        (⟨0, EntryRead.value "u1", EntryRead.value "", EntryRead.absent, false⟩ :
          Session String)
      = Except.ok (AuthToken.new "u1" AuthState.NeedsMfa) :=
  (get_auth_token_needs_mfa_amended _ "u1" rfl).1 "" rfl

/-- C3: for every session record with a deserializable `user` and no
`needs_mfa` entry, `get_auth_token` returns an `AuthToken` carrying that
user with state `Authenticated`. -/
theorem get_auth_token_authenticated {U : Type} (s : Session U) (u : U)
    (hu : s.user = EntryRead.value u) (hm : s.needs_mfa = EntryRead.absent) :
    get_auth_token s = Except.ok (AuthToken.new u AuthState.Authenticated) := by
  simp [get_auth_token, hu, hm]

/-- Witness for C3 at a concrete session with a user and no `needs_mfa`. -/
theorem get_auth_token_authenticated_witness :
    get_auth_token
        (⟨0, EntryRead.value "u1", EntryRead.absent, EntryRead.value 99, false⟩ :
          Session String)
      = Except.ok (AuthToken.new "u1" AuthState.Authenticated) :=
  get_auth_token_authenticated _ "u1" rfl rfl

/-- C4: the result of `get_auth_token` is independent of the
`login_valid_until` entry (and of the identity and purged flag): any two
session records that agree on `user` and `needs_mfa` produce the same
result, so the provider never consults or enforces login freshness. -/
theorem get_auth_token_ignores_login_valid_until {U : Type}
    (s₁ s₂ : Session U) (hu : s₁.user = s₂.user)
    (hm : s₁.needs_mfa = s₂.needs_mfa) :
    get_auth_token s₁ = get_auth_token s₂ := by
  unfold get_auth_token
  rw [hu, hm]

/-- Witness for C4: two concrete sessions agreeing on `user` and
`needs_mfa` but differing in `login_valid_until` (present in the past vs
absent) yield the same result. -/
theorem get_auth_token_ignores_login_valid_until_witness :
    get_auth_token
        (⟨0, EntryRead.value "u1", EntryRead.absent, EntryRead.value 0, false⟩ :
          Session String)
      = get_auth_token
        (⟨0, EntryRead.value "u1", EntryRead.absent, EntryRead.absent, false⟩ :
          Session String) :=
  get_auth_token_ignores_login_valid_until _ _ rfl rfl

/-- C5: `no_longer_valid` returns `true` exactly when the
`login_valid_until` key is absent, its stored value is unreadable, or the
current time exceeds the stored timestamp; it returns `false` exactly
when a value is present, readable, and the deadline has not yet passed
(`now ≤ vu`, "still in the future"). -/
theorem no_longer_valid_spec {U : Type} (now : Nat) (s : Session U) :
    (LoginSession.no_longer_valid now s = true ↔
      s.login_valid_until = EntryRead.absent
      ∨ s.login_valid_until = EntryRead.unreadable
      ∨ ∃ vu : Nat, s.login_valid_until = EntryRead.value vu ∧ vu < now)
    ∧ (LoginSession.no_longer_valid now s = false ↔
      ∃ vu : Nat, s.login_valid_until = EntryRead.value vu ∧ now ≤ vu) := by
  cases h : s.login_valid_until with
  | absent => simp [LoginSession.no_longer_valid, h]
  | value vu => simp [LoginSession.no_longer_valid, h]
  | unreadable => simp [LoginSession.no_longer_valid, h]

/-- C6: `reset()` is renew-then-clear, in that order; afterwards the
session identity differs from before and the `user`, `needs_mfa` and
`login_valid_until` keys are all absent. -/
theorem reset_spec {U : Type} (s : Session U) :
    LoginSession.reset s = LoginSession.clear (LoginSession.renew s)
    ∧ (LoginSession.reset s).identity ≠ s.identity
    ∧ (LoginSession.reset s).user = EntryRead.absent
    ∧ (LoginSession.reset s).needs_mfa = EntryRead.absent
    ∧ (LoginSession.reset s).login_valid_until = EntryRead.absent := by
  refine ⟨rfl, ?_, rfl, rfl, rfl⟩
  simp [LoginSession.reset, LoginSession.clear, LoginSession.renew]

/-- C7: `mfa_challenge_done()` removes the `needs_mfa` entry
unconditionally, is idempotent (on a session without the key it changes
nothing, with no error path), and after it runs a fresh `get_auth_token`
derivation on the same session never yields a token with state
`NeedsMfa`. -/
theorem mfa_challenge_done_spec {U : Type} (s : Session U) :
    (LoginSession.mfa_challenge_done s).needs_mfa = EntryRead.absent
    ∧ LoginSession.mfa_challenge_done (LoginSession.mfa_challenge_done s)
        = LoginSession.mfa_challenge_done s
    ∧ (s.needs_mfa = EntryRead.absent → LoginSession.mfa_challenge_done s = s)
    ∧ ∀ t : AuthToken U,
        get_auth_token (LoginSession.mfa_challenge_done s) = Except.ok t →
        t.state ≠ AuthState.NeedsMfa := by
  refine ⟨rfl, rfl, ?_, ?_⟩
  · intro hm
    simp [LoginSession.mfa_challenge_done, ← hm]
  · intro t ht
    unfold get_auth_token LoginSession.mfa_challenge_done at ht
    cases hu : s.user <;> simp [hu] at ht
    rw [← ht]
    simp [AuthToken.new]

/-- Witness for C7: on a concrete session with a user and an outstanding
`totp` factor, completing the challenge yields an `Authenticated` token,
whose state is not `NeedsMfa`. -/
theorem mfa_challenge_done_spec_witness :
    get_auth_token
        (LoginSession.mfa_challenge_done
          (⟨0, EntryRead.value "u1", EntryRead.value "totp", EntryRead.absent,
              false⟩ : Session String))
      = Except.ok (AuthToken.new "u1" AuthState.Authenticated)
    ∧ (AuthToken.new "u1" AuthState.Authenticated).state ≠ AuthState.NeedsMfa :=
  ⟨rfl,
   (mfa_challenge_done_spec
      (⟨0, EntryRead.value "u1", EntryRead.value "totp", EntryRead.absent,
          false⟩ : Session String)).2.2.2
     (AuthToken.new "u1" AuthState.Authenticated) rfl⟩

/-- C8: after `destroy()` purges a session record and its identity, a
subsequent `get_auth_token` on that same, now purged session returns
`UnauthorizedError`. -/
theorem destroy_then_get_auth_token_unauthorized {U : Type} (s : Session U) :
    (LoginSession.destroy s).purged = true
    ∧ get_auth_token (LoginSession.destroy s)
        = Except.error UnauthorizedError.default :=
  ⟨rfl, rfl⟩

/-- C9: for every session record and factor id, `needs_mfa(factor_id)`
writes `factor_id` to the `needs_mfa` key and leaves the `user` entry and
`login_valid_until` unchanged. -/
theorem needs_mfa_frame {U : Type} (s : Session U) (mfa_id : String) :
    (LoginSession.needs_mfa s mfa_id).needs_mfa = EntryRead.value mfa_id
    ∧ (LoginSession.needs_mfa s mfa_id).user = s.user
    ∧ (LoginSession.needs_mfa s mfa_id).login_valid_until
        = s.login_valid_until :=
  ⟨rfl, rfl, rfl⟩

/-- C10: whenever `get_auth_token` succeeds, the returned token's state is
`NeedsMfa` or `Authenticated` and never `Unauthenticated`: the
unauthenticated case at this interface is represented exclusively by the
`UnauthorizedError` failure. -/
theorem get_auth_token_never_unauthenticated {U : Type} (s : Session U)
    (t : AuthToken U) (h : get_auth_token s = Except.ok t) :
    (t.state = AuthState.NeedsMfa ∨ t.state = AuthState.Authenticated)
    ∧ t.state ≠ AuthState.Unauthenticated := by
  unfold get_auth_token at h
  cases hu : s.user <;> simp [hu] at h
  cases hm : s.needs_mfa <;> simp [hm] at h
  · rw [← h]
    simp [AuthToken.new]
  · rw [← h]
    simp [AuthToken.new]

/-- Witness for C10 at a concrete session yielding an `Authenticated`
token. -/
theorem get_auth_token_never_unauthenticated_witness :
    ((AuthToken.new "u1" AuthState.Authenticated).state = AuthState.NeedsMfa
      ∨ (AuthToken.new "u1" AuthState.Authenticated).state
          = AuthState.Authenticated)
    ∧ (AuthToken.new "u1" AuthState.Authenticated).state
        ≠ AuthState.Unauthenticated :=
  get_auth_token_never_unauthenticated
    (⟨0, EntryRead.value "u1", EntryRead.absent, EntryRead.absent, false⟩ :
      Session String)
    (AuthToken.new "u1" AuthState.Authenticated) rfl
